import Mathlib

/-!
Shallow embedding of the shield-core evaluation pipeline (Rust) in Lean 4.

Strings are modelled as lists of characters (`Str`).  Rust `str::to_lowercase`
is modelled characterwise with `Char.toLower` (ASCII case folding; every
keyword the engine matches is ASCII).  Rust `f64` amounts are modelled as
exact rationals: the engine only parses short decimal literals, compares
against thresholds and takes remainders, all of which are exact on the
values involved.  UUID minting (`Uuid::new_v4`) and clock reads (`Utc::now`)
are modelled as externally supplied inputs (`Freshness`), which is the only
nondeterminism of the keyword/heuristic/config pipeline.
-/

set_option maxRecDepth 20000

namespace Shield

/-- Text is a list of characters. -/
abbrev Str := List Char

/-- Characterwise lowercasing, modelling Rust `str::to_lowercase` on the
ASCII texts the engine matches (Lean's `Char.toLower` folds A..Z). -/
def lowerStr (s : Str) : Str := s.map Char.toLower

/-- Substring test, modelling Rust `str::contains` for string patterns. -/
def strContains (text pat : Str) : Bool :=
  match text with
  | [] => pat.isEmpty
  | c :: rest => pat.isPrefixOf (c :: rest) || strContains rest pat

/-- The suffix of `text` after the first occurrence of `pat`, modelling
Rust `text.find(pat)` followed by slicing `text[idx + pat.len()..]`. -/
def afterSub : Str → Str → Option Str
  | [], pat => if pat.isEmpty then some [] else none
  | c :: rest, pat =>
      if pat.isPrefixOf (c :: rest) then some ((c :: rest).drop pat.length)
      else afterSub rest pat

/-- The suffix of `text` after the first occurrence of the character
`target`, modelling `text.find(c)` followed by `&text[idx + 1..]`. -/
def afterChar (target : Char) : Str → Option Str
  | [] => none
  | c :: rest => if c = target then some rest else afterChar target rest

/-- Accumulator for `splitWhitespace`. -/
def splitWsAux : Str → Str → List Str
  | [], acc => if acc.isEmpty then [] else [acc.reverse]
  | c :: rest, acc =>
      if c.isWhitespace then
        if acc.isEmpty then splitWsAux rest [] else acc.reverse :: splitWsAux rest []
      else splitWsAux rest (c :: acc)

/-- Splitting on whitespace with empty chunks skipped, modelling Rust
`str::split_whitespace` (ASCII whitespace). -/
def splitWhitespace (s : Str) : List Str := splitWsAux s []

/-- Digit string to a natural number (callers only pass ASCII digits). -/
def digitsToNat (s : Str) : Nat :=
  s.foldl (fun acc c => acc * 10 + (c.toNat - 48)) 0

/-- Decimal parsing, modelling Rust `str::parse::<f64>()` on the strings the
engine builds (characters are always digits and at most dots after the
callers' filters): it succeeds exactly when there is at least one digit and
at most one dot, and yields the exact rational value of the literal. -/
def parseF64 (s : Str) : Option ℚ :=
  if s.all (fun c => c.isDigit || c = '.') = false then none
  else if 1 < s.count '.' then none
  else if s.any Char.isDigit = false then none
  else
    let intPart := s.takeWhile (fun c => c ≠ '.')
    let fracPart := (s.dropWhile (fun c => c ≠ '.')).drop 1
    if fracPart.isEmpty then some ((digitsToNat intPart : ℤ) : ℚ)
    else
      some (((digitsToNat intPart : ℤ) : ℚ)
        + ((digitsToNat fracPart : ℤ) : ℚ) / (10 : ℚ) ^ fracPart.length)

/-- Truncation toward zero on rationals, as Rust `%` on `f64` truncates. -/
def ratTrunc (q : ℚ) : ℤ := if 0 ≤ q then ⌊q⌋ else -⌊-q⌋

/-- Remainder with the dividend's sign, modelling `f64`'s `%` (fmod), which
is exact on the values compared here. -/
def ratFmod (a b : ℚ) : ℚ := a - b * (ratTrunc (a / b) : ℚ)

/-- Rounding half away from zero, modelling `f64::round`. -/
def f64Round (q : ℚ) : ℤ := if 0 ≤ q then ⌊q + 1 / 2⌋ else -⌊-q + 1 / 2⌋

/-- The ASCII apostrophe, used by the Rust format strings. -/
def qc : Char := Char.ofNat 39

/-- Decimal rendering of a natural number. -/
def natToStr (n : Nat) : Str := (Nat.repr n).toList

/-- Two-decimal rendering of an amount, modelling the `{:.2}` format
specifier (ties are rendered half-up; the engine never compares these
rendered strings, they only appear inside human-readable descriptions). -/
def fmtAmount (q : ℚ) : Str :=
  let cents : ℤ := round (q * 100)
  let n : Nat := cents.natAbs
  let signPart : Str := if cents < 0 then ['-'] else []
  let fracN : Nat := n % 100
  let fracStr : Str := if fracN < 10 then '0' :: natToStr fracN else natToStr fracN
  signPart ++ natToStr (n / 100) ++ ['.'] ++ fracStr

/-! ## Domain types (domain/action.rs, domain/evaluation.rs, domain/hitl.rs) -/

/-- ActionType from domain/action.rs. -/
inductive ActionType
  | getBalance
  | transferFunds
  | payBill
  | getTransactions
  | requestLoan
  | addBeneficiary
  | updateProfile
  | closeAccount
  | refundTransaction
  | unknown
deriving DecidableEq, Repr

/-- The Display strings of ActionType. -/
def actionTypeStr : ActionType → Str
  | ActionType.getBalance => ("get_balance").toList
  | ActionType.transferFunds => ("transfer_funds").toList
  | ActionType.payBill => ("pay_bill").toList
  | ActionType.getTransactions => ("get_transactions").toList
  | ActionType.requestLoan => ("request_loan").toList
  | ActionType.addBeneficiary => ("add_beneficiary").toList
  | ActionType.updateProfile => ("update_profile").toList
  | ActionType.closeAccount => ("close_account").toList
  | ActionType.refundTransaction => ("refund_transaction").toList
  | ActionType.unknown => ("unknown").toList

/-- JSON values as the engine observes them through serde_json: string and
numeric leaves, objects, and everything else collapsed to `other` (the
engine only ever calls `as_object`, `get`, `as_str` and `as_f64`). -/
inductive Json
  | str (s : Str)
  | num (q : ℚ)
  | obj (fields : List (Str × Json))
  | other

/-- Lookup of a key in an object, modelling `serde_json::Value::get`,
which returns None on non-objects. -/
def jsonGet (j : Json) (key : Str) : Option Json :=
  match j with
  | Json.obj fields => (fields.find? (fun kv => kv.1 == key)).map (fun kv => kv.2)
  | _ => none

/-- Models `Value::as_str`. -/
def jsonAsStr : Json → Option Str
  | Json.str s => some s
  | _ => none

/-- Models `Value::as_f64` (serde numbers carry i64/u64/f64, all of which
convert; the model stores the numeric value directly). -/
def jsonAsF64 : Json → Option ℚ
  | Json.num q => some q
  | _ => none

/-- The string values of an object's fields in order, as
`obj.values()` filtered through `as_str` iterates them. -/
def payloadStringValues : Json → List Str
  | Json.obj fields => fields.filterMap (fun kv => jsonAsStr kv.2)
  | _ => []

/-- AgentAction from domain/action.rs.  UUIDs are modelled as naturals and
timestamps as integers; neither is inspected by the engine. -/
structure Action where
  id : Nat
  traceId : Str
  appId : Option Nat
  userId : Str
  channel : Str
  modelName : Str
  originalIntent : Str
  actionType : ActionType
  payload : Json
  cotTrace : Option Str
  metadata : Option Json
  createdAt : Int

/-- AgentAction::extract_amount: the payload amount for monetary action
types only. -/
def extractAmount (a : Action) : Option ℚ :=
  match a.actionType with
  | ActionType.transferFunds => (jsonGet a.payload (("amount").toList)).bind jsonAsF64
  | ActionType.payBill => (jsonGet a.payload (("amount").toList)).bind jsonAsF64
  | ActionType.requestLoan => (jsonGet a.payload (("amount").toList)).bind jsonAsF64
  | ActionType.refundTransaction => (jsonGet a.payload (("amount").toList)).bind jsonAsF64
  | _ => none

/-- DecisionStatus from domain/evaluation.rs. -/
inductive Decision
  | allow
  | requireHitl
  | block
deriving DecidableEq, Repr

/-- RiskTier from domain/evaluation.rs. -/
inductive RiskTier
  | low
  | medium
  | high
  | critical
deriving DecidableEq, Repr

/-- EvaluationResult from domain/evaluation.rs. -/
structure EvaluationResult where
  id : Nat
  agentActionId : Nat
  decision : Decision
  riskTier : RiskTier
  reasons : List Str
  ruleHits : List Str
  neuralSignals : List Str
  createdAt : Int
deriving DecidableEq

/-- HitlStatus from domain/hitl.rs. -/
inductive HitlStatus
  | pending
  | approved
  | rejected
deriving DecidableEq, Repr

/-- The Display strings of HitlStatus. -/
def hitlStatusStr : HitlStatus → Str
  | HitlStatus.pending => ("pending").toList
  | HitlStatus.approved => ("approved").toList
  | HitlStatus.rejected => ("rejected").toList

/-- HitlTask from domain/hitl.rs. -/
structure HitlTask where
  id : Nat
  agentActionId : Nat
  evaluationId : Nat
  status : HitlStatus
  reviewerId : Option Str
  reviewedAt : Option Int
  reviewNotes : Option Str
  createdAt : Int
deriving DecidableEq

/-- HitlTask::new, with the fresh UUID and clock value supplied by the
environment. -/
def HitlTask.mkNew (freshId : Nat) (agentActionId evaluationId : Nat) (now : Int) : HitlTask :=
  { id := freshId
    agentActionId := agentActionId
    evaluationId := evaluationId
    status := HitlStatus.pending
    reviewerId := none
    reviewedAt := none
    reviewNotes := none
    createdAt := now }

/-- SafetyConfig from config.rs. -/
structure SafetyConfig where
  maxAutoAmount : ℚ
  hitlThreshold : ℚ
  maxTransfersPerHour : Nat
  suspiciousKeywords : List Str

/-- The Default impl of SafetyConfig. -/
def defaultSafetyConfig : SafetyConfig :=
  { maxAutoAmount := 100
    hitlThreshold := 1000
    maxTransfersPerHour := 3
    suspiciousKeywords :=
      [("ignore previous instructions").toList, ("bypass").toList,
       ("transfer all funds").toList] }

/-! ## Input firewall (engine/firewall.rs) -/

/-- FirewallOutcome from engine/firewall.rs. -/
inductive FirewallOutcome
  | clean
  | suspicious (reasons : List Str)
  | blocked (reasons : List Str)
deriving DecidableEq

/-- FirewallOutcome::is_blocked. -/
def firewallIsBlocked : FirewallOutcome → Bool
  | FirewallOutcome.blocked _ => true
  | _ => false

/-- FirewallOutcome::is_suspicious. -/
def firewallIsSuspicious : FirewallOutcome → Bool
  | FirewallOutcome.suspicious _ => true
  | _ => false

/-- The fixed hard-block list built by KeywordFirewall::new. -/
def blockKeywords : List Str :=
  [("ignore all previous instructions").toList,
   ("disregard your instructions").toList,
   ("you are now").toList,
   ("new persona").toList,
   ("jailbreak").toList,
   ("DAN mode").toList]

/-- KeywordFirewall::contains_any: the keywords the lowercased text
contains (case-insensitively). -/
def containsAny (text : Str) (keywords : List Str) : List Str :=
  let textLower := lowerStr text
  keywords.filter (fun kw => strContains textLower (lowerStr kw))

/-- KeywordFirewall::get_scannable_text: the intent, the chain-of-thought
if present and every string payload value, each followed by a space. -/
def getScannableText (a : Action) : Str :=
  a.originalIntent ++ [' ']
    ++ (match a.cotTrace with
        | some cot => cot ++ [' ']
        | none => [])
    ++ (payloadStringValues a.payload).foldr (fun s acc => s ++ ' ' :: acc) []

/-- The reason string for a blocked keyword hit. -/
def blockedReason (kw : Str) : Str :=
  ("Blocked keyword detected: ").toList ++ [qc] ++ kw ++ [qc]

/-- The reason string for a suspicious keyword hit. -/
def suspiciousReason (kw : Str) : Str :=
  ("Suspicious pattern detected: ").toList ++ [qc] ++ kw ++ [qc]

/-- KeywordFirewall::evaluate (the Rust returns Blocked when the block-hit
list is nonempty, then Suspicious when the suspicious-hit list is nonempty,
else Clean). -/
def keywordFirewallEvaluate (suspiciousKeywords : List Str) (a : Action) : FirewallOutcome :=
  let text := getScannableText a
  let blockHits := containsAny text blockKeywords
  if blockHits.isEmpty then
    let suspiciousHits := containsAny text suspiciousKeywords
    if suspiciousHits.isEmpty then FirewallOutcome.clean
    else FirewallOutcome.suspicious (suspiciousHits.map suspiciousReason)
  else FirewallOutcome.blocked (blockHits.map blockedReason)

/-! ## Alignment checker (engine/alignment.rs) -/

/-- AlignmentOutcome from engine/alignment.rs. -/
inductive AlignmentOutcome
  | aligned
  | misaligned (reasons : List Str)
  | unknown
deriving DecidableEq

/-- AlignmentOutcome::is_misaligned. -/
def alignmentIsMisaligned : AlignmentOutcome → Bool
  | AlignmentOutcome.misaligned _ => true
  | _ => false

/-- AlignmentOutcome::reasons. -/
def alignmentReasons : AlignmentOutcome → List Str
  | AlignmentOutcome.misaligned reasons => reasons
  | _ => []

/-- HeuristicAlignmentChecker::infer_intent_type. -/
def inferIntentType (intent : Str) : Option ActionType :=
  let intentLower := lowerStr intent
  if strContains intentLower (("balance").toList)
      || strContains intentLower (("how much").toList)
      || strContains intentLower (("check account").toList)
      || strContains intentLower (("account status").toList) then
    some ActionType.getBalance
  else if strContains intentLower (("transfer").toList)
      || strContains intentLower (("send money").toList)
      || strContains intentLower (("move funds").toList)
      || strContains intentLower (("wire").toList) then
    some ActionType.transferFunds
  else if strContains intentLower (("pay bill").toList)
      || strContains intentLower (("pay my").toList)
      || strContains intentLower (("payment to").toList) then
    some ActionType.payBill
  else if strContains intentLower (("transaction").toList)
      || strContains intentLower (("history").toList)
      || strContains intentLower (("recent activity").toList)
      || strContains intentLower (("statement").toList) then
    some ActionType.getTransactions
  else none

/-- The reason when a read-only intent meets a write action. -/
def readWriteReason (intent : Str) (actual : ActionType) : Str :=
  ("User intent ").toList ++ [qc] ++ intent ++ [qc]
    ++ (" suggests read-only operation, but action is ").toList
    ++ [qc] ++ actionTypeStr actual ++ [qc]

/-- The reason when a critical action does not match the inferred intent. -/
def criticalMismatchReason (actual : ActionType) (intent : Str) : Str :=
  ("Critical action ").toList ++ [qc] ++ actionTypeStr actual ++ [qc]
    ++ (" does not match user intent ").toList ++ [qc] ++ intent ++ [qc]

/-- The reason for a strict-mode type mismatch. -/
def strictMismatchReason (inferred actual : ActionType) : Str :=
  ("Inferred intent type ").toList ++ [qc] ++ actionTypeStr inferred ++ [qc]
    ++ (" does not match action type ").toList ++ [qc] ++ actionTypeStr actual ++ [qc]

/-- The strict-mode reason when no intent is inferable for a high-risk
action. -/
def cannotVerifyReason (actual : ActionType) : Str :=
  ("Cannot verify intent for high-risk action ").toList
    ++ [qc] ++ actionTypeStr actual ++ [qc]

/-- HeuristicAlignmentChecker::check_action_intent_mismatch. -/
def checkActionIntentMismatch (strictMode : Bool) (inferred actual : ActionType)
    (intent : Str) : Option Str :=
  let isReadIntent :=
    inferred = ActionType.getBalance ∨ inferred = ActionType.getTransactions
  let isWriteAction :=
    actual = ActionType.transferFunds ∨ actual = ActionType.payBill
      ∨ actual = ActionType.closeAccount
  if isReadIntent ∧ isWriteAction then some (readWriteReason intent actual)
  else
    let isCriticalAction :=
      actual = ActionType.closeAccount ∨ actual = ActionType.addBeneficiary
        ∨ actual = ActionType.requestLoan
    if isCriticalAction ∧ inferred ≠ actual then
      some (criticalMismatchReason actual intent)
    else if inferred ≠ actual ∧ strictMode then
      some (strictMismatchReason inferred actual)
    else none

/-- HeuristicAlignmentChecker::check_alignment. -/
def checkAlignment (strictMode : Bool) (a : Action) : AlignmentOutcome :=
  match inferIntentType a.originalIntent with
  | none =>
      if strictMode = false then AlignmentOutcome.unknown
      else if a.actionType = ActionType.transferFunds ∨ a.actionType = ActionType.payBill then
        AlignmentOutcome.misaligned [cannotVerifyReason a.actionType]
      else AlignmentOutcome.unknown
  | some inferredType =>
      match checkActionIntentMismatch strictMode inferredType a.actionType a.originalIntent with
      | some reason => AlignmentOutcome.misaligned [reason]
      | none => AlignmentOutcome.aligned

/-! ## Policy engine (engine/policy.rs) -/

/-- TriggeredRule from engine/policy.rs. -/
structure TriggeredRule where
  ruleId : Str
  description : Str
  suggestsBlock : Bool
  requiresHitl : Bool
deriving DecidableEq

/-- PolicyOutcome from engine/policy.rs. -/
structure PolicyOutcome where
  decisionHint : Option Decision
  triggeredRules : List TriggeredRule
deriving DecidableEq

/-- PolicyOutcome::allow. -/
def PolicyOutcome.allow : PolicyOutcome :=
  { decisionHint := some Decision.allow, triggeredRules := [] }

/-- PolicyOutcome::require_hitl. -/
def PolicyOutcome.requireHitl (rules : List TriggeredRule) : PolicyOutcome :=
  { decisionHint := some Decision.requireHitl, triggeredRules := rules }

/-- PolicyOutcome::block. -/
def PolicyOutcome.blockOutcome (rules : List TriggeredRule) : PolicyOutcome :=
  { decisionHint := some Decision.block, triggeredRules := rules }

/-- PolicyOutcome::strictest_decision. -/
def strictestDecision (po : PolicyOutcome) : Option Decision :=
  if po.triggeredRules.any (fun r => r.suggestsBlock) then some Decision.block
  else if po.triggeredRules.any (fun r => r.requiresHitl) then some Decision.requireHitl
  else po.decisionHint

/-- PolicyOutcome::rule_ids. -/
def policyRuleIds (po : PolicyOutcome) : List Str :=
  po.triggeredRules.map (fun r => r.ruleId)

/-- PolicyOutcome::descriptions. -/
def policyDescriptions (po : PolicyOutcome) : List Str :=
  po.triggeredRules.map (fun r => r.description)

/-- Pattern 1 of ConfigPolicyEngine::extract_amount_from_text: a dollar
sign followed by digits, commas and dots (on the original text, as the
Rust searches `text` for a dollar sign before lowercasing matters). -/
def amountPattern1 (text : Str) : Option ℚ :=
  match afterChar '$' text with
  | none => none
  | some afterDollar =>
      let amountStr :=
        (afterDollar.takeWhile (fun c => c.isDigit || c = ',' || c = '.')).filter
          (fun c => c ≠ ',')
      match parseF64 amountStr with
      | some amount => if 0 < amount then some amount else none
      | none => none

/-- Pattern 2 of extract_amount_from_text: a number in the word preceding
a currency word, scanning words with the previous word carried along. -/
def amountPattern2 : List Str → Option Str → Option ℚ
  | [], _ => none
  | w :: rest, prev =>
      if w = ("dollars").toList ∨ w = ("dollar").toList ∨ w = ("usd").toList then
        match prev with
        | some pw =>
            let amountStr := pw.filter (fun c => c.isDigit || c = '.')
            match parseF64 amountStr with
            | some amount =>
                if 0 < amount then some amount else amountPattern2 rest (some w)
            | none => amountPattern2 rest (some w)
        | none => amountPattern2 rest (some w)
      else amountPattern2 rest (some w)

/-- The character-scan of pattern 3, starting at the first digit run after
a verb.  The Rust loop parses the slice from the run's start up to the
first character that is neither a digit, a comma nor a dot, and after a
failed mid-string parse the end-of-string handler reparses the take_while
slice from the same start (the same characters when the run was
interrupted; the full take_while when the run reached the end of text). -/
def amountPattern3Scan (afterVerb : Str) : Option ℚ :=
  let rest := afterVerb.dropWhile (fun c => c.isDigit = false)
  match rest with
  | [] => none
  | _ =>
      let run := rest.takeWhile (fun c => c.isDigit || c = ',' || c = '.')
      let interrupted := run.length < rest.length
      let midParse : Option ℚ :=
        if interrupted then
          match parseF64 (run.filter (fun c => c.isDigit || c = '.')) with
          | some amount => if 0 < amount then some amount else none
          | none => none
        else none
      match midParse with
      | some amount => some amount
      | none =>
          match parseF64 (run.filter (fun c => c ≠ ',')) with
          | some amount => if 0 < amount then some amount else none
          | none => none

/-- Pattern 3 of extract_amount_from_text: the first number after a verb
of the five-verb list, trying the verbs in order. -/
def amountPattern3 (textLower : Str) : List Str → Option ℚ
  | [] => none
  | v :: vs =>
      match afterSub textLower v with
      | none => amountPattern3 textLower vs
      | some afterVerb =>
          match amountPattern3Scan afterVerb with
          | some amount => some amount
          | none => amountPattern3 textLower vs

/-- The verb list of pattern 3 (only five verbs, a strict subset of the
financial keyword list of the Unknown heuristic). -/
def pattern3Verbs : List Str :=
  [("transfer").toList, ("send").toList, ("pay").toList, ("wire").toList,
   ("withdraw").toList]

/-- ConfigPolicyEngine::extract_amount_from_text. -/
def extractAmountFromText (text : Str) : Option ℚ :=
  let textLower := lowerStr text
  match amountPattern1 text with
  | some amount => some amount
  | none =>
      match amountPattern2 (splitWhitespace textLower) none with
      | some amount => some amount
      | none => amountPattern3 textLower pattern3Verbs

/-- The AMOUNT_MISSING rule. -/
def amountMissingRule : TriggeredRule :=
  { ruleId := ("AMOUNT_MISSING").toList
    description := ("Monetary action missing amount field").toList
    suggestsBlock := false
    requiresHitl := true }

/-- The AMOUNT_EXCEEDS_HITL_THRESHOLD rule. -/
def amountExceedsHitlRule (cfg : SafetyConfig) (amount : ℚ) : TriggeredRule :=
  { ruleId := ("AMOUNT_EXCEEDS_HITL_THRESHOLD").toList
    description :=
      ("Amount $").toList ++ fmtAmount amount
        ++ (" exceeds HITL threshold $").toList ++ fmtAmount cfg.hitlThreshold
    suggestsBlock := false
    requiresHitl := true }

/-- The AMOUNT_EXCEEDS_AUTO_LIMIT rule. -/
def amountExceedsAutoRule (cfg : SafetyConfig) (amount : ℚ) : TriggeredRule :=
  { ruleId := ("AMOUNT_EXCEEDS_AUTO_LIMIT").toList
    description :=
      ("Amount $").toList ++ fmtAmount amount
        ++ (" exceeds auto-approval limit $").toList ++ fmtAmount cfg.maxAutoAmount
    suggestsBlock := false
    requiresHitl := true }

/-- The AMOUNT_INVALID rule. -/
def amountInvalidRule (amount : ℚ) : TriggeredRule :=
  { ruleId := ("AMOUNT_INVALID").toList
    description := ("Invalid amount: $").toList ++ fmtAmount amount
    suggestsBlock := true
    requiresHitl := false }

/-- The AMOUNT_SUSPICIOUS_ROUND rule. -/
def amountSuspiciousRoundRule (amount : ℚ) : TriggeredRule :=
  { ruleId := ("AMOUNT_SUSPICIOUS_ROUND").toList
    description :=
      ("Suspiciously round amount $").toList ++ fmtAmount amount
        ++ (" may indicate automation").toList
    suggestsBlock := false
    requiresHitl := true }

/-- ConfigPolicyEngine::check_amount_rules.  The rules are pushed in the
source's order: the threshold chain, then the nonpositive check, then the
round-number check.  Note that the threshold chain is not guarded by the
sign of the amount. -/
def checkAmountRules (cfg : SafetyConfig) (a : Action) : List TriggeredRule :=
  if (a.actionType = ActionType.transferFunds ∨ a.actionType = ActionType.payBill) then
    match extractAmount a with
    | none => [amountMissingRule]
    | some amount =>
        (if cfg.hitlThreshold < amount then [amountExceedsHitlRule cfg amount]
         else if cfg.maxAutoAmount < amount then [amountExceedsAutoRule cfg amount]
         else [])
          ++ (if amount ≤ 0 then [amountInvalidRule amount] else [])
          ++ (if 1000 < amount ∧ amount = (f64Round amount : ℚ) ∧ ratFmod amount 1000 = 0
              then [amountSuspiciousRoundRule amount] else [])
  else []

/-- The TRANSFER_SAME_ACCOUNT rule. -/
def transferSameAccountRule : TriggeredRule :=
  { ruleId := ("TRANSFER_SAME_ACCOUNT").toList
    description := ("Transfer source and destination are the same").toList
    suggestsBlock := true
    requiresHitl := false }

/-- The ACTION_ADD_BENEFICIARY rule. -/
def addBeneficiaryRule : TriggeredRule :=
  { ruleId := ("ACTION_ADD_BENEFICIARY").toList
    description := ("Adding new beneficiary requires human approval").toList
    suggestsBlock := false
    requiresHitl := true }

/-- The ACTION_CLOSE_ACCOUNT rule. -/
def closeAccountRule : TriggeredRule :=
  { ruleId := ("ACTION_CLOSE_ACCOUNT").toList
    description := ("Account closure is a critical action requiring review").toList
    suggestsBlock := false
    requiresHitl := true }

/-- The ACTION_UPDATE_PROFILE rule. -/
def updateProfileRule : TriggeredRule :=
  { ruleId := ("ACTION_UPDATE_PROFILE").toList
    description := ("Profile updates should be reviewed").toList
    suggestsBlock := false
    requiresHitl := true }

/-- The ACTION_REQUEST_LOAN rule. -/
def requestLoanRule : TriggeredRule :=
  { ruleId := ("ACTION_REQUEST_LOAN").toList
    description := ("Loan requests require human verification").toList
    suggestsBlock := false
    requiresHitl := true }

/-- The ACTION_REFUND rule. -/
def refundRule : TriggeredRule :=
  { ruleId := ("ACTION_REFUND").toList
    description := ("Refunds require human approval").toList
    suggestsBlock := false
    requiresHitl := true }

/-- The UNCLASSIFIED_HIGH_VALUE_TRANSFER rule. -/
def unclassifiedHighValueRule (amount : ℚ) : TriggeredRule :=
  { ruleId := ("UNCLASSIFIED_HIGH_VALUE_TRANSFER").toList
    description :=
      ("Unclassified financial action with $").toList ++ fmtAmount amount
        ++ (" exceeds threshold - BLOCKED").toList
    suggestsBlock := true
    requiresHitl := false }

/-- The UNCLASSIFIED_TRANSFER_NEEDS_REVIEW rule. -/
def unclassifiedNeedsReviewRule (amount : ℚ) : TriggeredRule :=
  { ruleId := ("UNCLASSIFIED_TRANSFER_NEEDS_REVIEW").toList
    description :=
      ("Unclassified financial action with $").toList ++ fmtAmount amount
        ++ (" requires human review").toList
    suggestsBlock := false
    requiresHitl := true }

/-- The UNCLASSIFIED_SMALL_TRANSFER rule. -/
def unclassifiedSmallRule (amount : ℚ) : TriggeredRule :=
  { ruleId := ("UNCLASSIFIED_SMALL_TRANSFER").toList
    description :=
      ("Unclassified financial action with $").toList ++ fmtAmount amount
        ++ (" - flagged for monitoring").toList
    suggestsBlock := false
    requiresHitl := false }

/-- The UNCLASSIFIED_FINANCIAL_INTENT rule. -/
def unclassifiedFinancialIntentRule : TriggeredRule :=
  { ruleId := ("UNCLASSIFIED_FINANCIAL_INTENT").toList
    description := ("Unclassified action with financial keywords requires review").toList
    suggestsBlock := false
    requiresHitl := true }

/-- The UNCLASSIFIED_AMOUNT_DETECTED rule. -/
def unclassifiedAmountDetectedRule (amount : ℚ) : TriggeredRule :=
  { ruleId := ("UNCLASSIFIED_AMOUNT_DETECTED").toList
    description :=
      ("Unclassified action mentions $").toList ++ fmtAmount amount
        ++ (" - requires review").toList
    suggestsBlock := false
    requiresHitl := true }

/-- The financial keyword list of the Unknown-action heuristic. -/
def financialKeywords : List Str :=
  [("transfer").toList, ("send").toList, ("pay").toList, ("wire").toList,
   ("withdraw").toList, ("deposit").toList, ("move money").toList,
   ("move funds").toList, ("payment").toList, ("transaction").toList]

/-- First-choice composition of two options, modelling `Option::or`. -/
def optOr (x y : Option ℚ) : Option ℚ :=
  match x with
  | some v => some v
  | none => y

/-- ConfigPolicyEngine::check_action_type_rules. -/
def checkActionTypeRules (cfg : SafetyConfig) (a : Action) : List TriggeredRule :=
  match a.actionType with
  | ActionType.transferFunds =>
      match a.payload with
      | Json.obj _ =>
          let fromAcc := (jsonGet a.payload (("from_account_id").toList)).bind jsonAsStr
          let toAcc := (jsonGet a.payload (("to_account_id").toList)).bind jsonAsStr
          if fromAcc.isSome ∧ fromAcc = toAcc then [transferSameAccountRule] else []
      | _ => []
  | ActionType.addBeneficiary => [addBeneficiaryRule]
  | ActionType.closeAccount => [closeAccountRule]
  | ActionType.updateProfile => [updateProfileRule]
  | ActionType.requestLoan => [requestLoanRule]
  | ActionType.refundTransaction => [refundRule]
  | ActionType.unknown =>
      let intentLower := lowerStr a.originalIntent
      let hasFinancialKeyword :=
        financialKeywords.any (fun kw => strContains intentLower kw)
      let amountFromText := extractAmountFromText a.originalIntent
      let amountFromPayload := extractAmount a
      let detectedAmount := optOr amountFromText amountFromPayload
      if hasFinancialKeyword then
        match detectedAmount with
        | some amount =>
            if cfg.hitlThreshold < amount then [unclassifiedHighValueRule amount]
            else if cfg.maxAutoAmount < amount then [unclassifiedNeedsReviewRule amount]
            else [unclassifiedSmallRule amount]
        | none => [unclassifiedFinancialIntentRule]
      else
        match detectedAmount with
        | some amount =>
            if cfg.maxAutoAmount < amount then [unclassifiedAmountDetectedRule amount]
            else []
        | none => []
  | ActionType.getBalance => []
  | ActionType.getTransactions => []
  | ActionType.payBill => []

/-- ConfigPolicyEngine::evaluate_policies. -/
def evaluatePolicies (cfg : SafetyConfig) (a : Action) : PolicyOutcome :=
  let allRules := checkAmountRules cfg a ++ checkActionTypeRules cfg a
  if allRules.isEmpty then PolicyOutcome.allow
  else if allRules.any (fun r => r.suggestsBlock) then PolicyOutcome.blockOutcome allRules
  else if allRules.any (fun r => r.requiresHitl) then PolicyOutcome.requireHitl allRules
  else { decisionHint := some Decision.allow, triggeredRules := allRules }

/-! ## Evaluation coordinator (engine/coordinator.rs)

The coordinator under the production wiring with the neural firewall
disabled (main.rs): the keyword firewall over the configured suspicious
keywords, the heuristic alignment checker and the config policy engine.
A composite firewall over the single keyword firewall behaves exactly as
the keyword firewall (the first Blocked short-circuits; the suspicious
reasons of the only member are returned as collected). -/

/-- EvaluationCoordinator::merge_outcomes, decision part: the Rust matches
the strictest policy decision after the firewall-block and misalignment
checks, treating `Some(Allow)` and `None` alike. -/
def mergeDecision (fw : FirewallOutcome) (al : AlignmentOutcome) (po : PolicyOutcome) :
    Decision :=
  if firewallIsBlocked fw then Decision.block
  else if alignmentIsMisaligned al then Decision.requireHitl
  else
    match strictestDecision po with
    | some Decision.block => Decision.block
    | some Decision.requireHitl => Decision.requireHitl
    | some Decision.allow =>
        if firewallIsSuspicious fw then Decision.requireHitl else Decision.allow
    | none =>
        if firewallIsSuspicious fw then Decision.requireHitl else Decision.allow

/-- EvaluationCoordinator::merge_outcomes, risk-tier part, computed from
the already-merged decision exactly as the Rust match does. -/
def mergeRisk (fw : FirewallOutcome) (po : PolicyOutcome) (d : Decision) : RiskTier :=
  match d with
  | Decision.block => RiskTier.critical
  | Decision.requireHitl => RiskTier.high
  | Decision.allow =>
      if firewallIsSuspicious fw || !po.triggeredRules.isEmpty then RiskTier.medium
      else RiskTier.low

/-- The accumulated output of the pipeline before ids and timestamps are
attached: decision, risk tier, reasons, rule hits and neural signals. -/
structure PipelineOut where
  decision : Decision
  riskTier : RiskTier
  reasons : List Str
  ruleHits : List Str
  neuralSignals : List Str
deriving DecidableEq

/-- The synthetic FIREWALL_BLOCK rule hit. -/
def firewallBlockId : Str := ("FIREWALL_BLOCK").toList

/-- The firewall_triggered neural signal. -/
def firewallTriggeredSignal : Str := ("firewall_triggered").toList

/-- The synthetic FIREWALL_SUSPICIOUS rule hit. -/
def firewallSuspiciousId : Str := ("FIREWALL_SUSPICIOUS").toList

/-- The synthetic ALIGNMENT_MISALIGNED rule hit. -/
def alignmentMisalignedId : Str := ("ALIGNMENT_MISALIGNED").toList

/-- EvaluationCoordinator::evaluate up to id/timestamp minting: the
firewall-blocked short circuit, then the accumulation of suspicion,
misalignment and policy reasons and rule hits, then merge_outcomes. -/
def runPipeline (cfg : SafetyConfig) (strictMode : Bool) (a : Action) : PipelineOut :=
  let fw := keywordFirewallEvaluate cfg.suspiciousKeywords a
  match fw with
  | FirewallOutcome.blocked fwReasons =>
      { decision := Decision.block
        riskTier := RiskTier.critical
        reasons := fwReasons
        ruleHits := [firewallBlockId]
        neuralSignals := [firewallTriggeredSignal] }
  | fwOther =>
      let reasons0 :=
        match fwOther with
        | FirewallOutcome.suspicious fwReasons => fwReasons
        | _ => []
      let ruleHits0 :=
        match fwOther with
        | FirewallOutcome.suspicious _ => [firewallSuspiciousId]
        | _ => []
      let al := checkAlignment strictMode a
      let reasons1 := reasons0 ++ alignmentReasons al
      let ruleHits1 :=
        ruleHits0 ++ (if alignmentIsMisaligned al then [alignmentMisalignedId] else [])
      let po := evaluatePolicies cfg a
      let d := mergeDecision fwOther al po
      { decision := d
        riskTier := mergeRisk fwOther po d
        reasons := reasons1 ++ policyDescriptions po
        ruleHits := ruleHits1 ++ policyRuleIds po
        neuralSignals := [] }

/-- The fresh identifiers and the clock value an evaluation run draws
(Uuid::new_v4 for the evaluation and the task, Utc::now). -/
structure Freshness where
  evalId : Nat
  taskId : Nat
  now : Int

/-- CoordinatorResult from engine/coordinator.rs. -/
structure CoordinatorResult where
  evaluation : EvaluationResult
  hitlTask : Option HitlTask
deriving DecidableEq

/-- EvaluationCoordinator::evaluate.  A HITL task is created exactly when
the merged decision is RequireHitl (in the firewall-blocked short circuit
the Rust returns None directly; there the decision is Block, so the single
conditional is the same function). -/
def coordinatorEvaluate (cfg : SafetyConfig) (strictMode : Bool) (fr : Freshness)
    (a : Action) : CoordinatorResult :=
  let out := runPipeline cfg strictMode a
  { evaluation :=
      { id := fr.evalId
        agentActionId := a.id
        decision := out.decision
        riskTier := out.riskTier
        reasons := out.reasons
        ruleHits := out.ruleHits
        neuralSignals := out.neuralSignals
        createdAt := fr.now }
    hitlTask :=
      if out.decision = Decision.requireHitl then
        some (HitlTask.mkNew fr.taskId a.id fr.evalId fr.now)
      else none }

/-! ## Repository and HITL decision handler
(storage/repository.rs, api/handlers.rs)

The SQLite store is modelled as association lists keyed by primary key.
`save_action`, `save_evaluation` and `save_hitl_task` are plain INSERTs
into tables whose `id` column is `TEXT PRIMARY KEY`, so inserting an
existing key fails with a uniqueness violation (surfaced as
ShieldError::Database).  `update_hitl_task` is an UPDATE whose WHERE
clause names only the id — it carries no condition on the current
status. -/

/-- Errors of the persistence and handler layer: the sqlx uniqueness
violation surfaced as ShieldError::Database, ShieldError::NotFound, and
ShieldError::BadRequest carrying its message. -/
inductive ShieldError
  | uniqueViolation
  | notFound
  | badRequest (msg : Str)
deriving DecidableEq

/-- First entry with the given key in an association list (SQL lookup by
primary key; keys are unique whenever rows were only created by the
INSERTs modelled here). -/
def findEntry {α : Type} : List (Nat × α) → Nat → Option α
  | [], _ => none
  | (k, v) :: rest, key => if k = key then some v else findEntry rest key

/-- The persisted rows the engine's hot path touches. -/
structure Store where
  actions : List (Nat × Action)
  evaluations : List (Nat × EvaluationResult)
  hitlTasks : List (Nat × HitlTask)

/-- ShieldRepository::save_action: INSERT INTO agent_actions, which fails
on a duplicate primary key. -/
def saveAction (s : Store) (a : Action) : Except ShieldError Store :=
  match findEntry s.actions a.id with
  | some _ => Except.error ShieldError.uniqueViolation
  | none => Except.ok { s with actions := s.actions ++ [(a.id, a)] }

/-- ShieldRepository::save_evaluation: INSERT INTO evaluations. -/
def saveEvaluation (s : Store) (e : EvaluationResult) : Except ShieldError Store :=
  match findEntry s.evaluations e.id with
  | some _ => Except.error ShieldError.uniqueViolation
  | none => Except.ok { s with evaluations := s.evaluations ++ [(e.id, e)] }

/-- ShieldRepository::save_hitl_task: INSERT INTO hitl_tasks. -/
def saveHitlTask (s : Store) (t : HitlTask) : Except ShieldError Store :=
  match findEntry s.hitlTasks t.id with
  | some _ => Except.error ShieldError.uniqueViolation
  | none => Except.ok { s with hitlTasks := s.hitlTasks ++ [(t.id, t)] }

/-- ShieldRepository::get_hitl_task: SELECT by id or NotFound. -/
def getHitlTask (s : Store) (id : Nat) : Except ShieldError HitlTask :=
  match findEntry s.hitlTasks id with
  | some t => Except.ok t
  | none => Except.error ShieldError.notFound

/-- ShieldRepository::update_hitl_task: an UPDATE of status, reviewer_id,
reviewed_at and review_notes WHERE id = ? — unconditional on the current
status — followed by the SELECT that returns the updated row. -/
def updateHitlTask (s : Store) (id : Nat) (status : HitlStatus) (reviewerId : Str)
    (notes : Option Str) (now : Int) : Except ShieldError (HitlTask × Store) :=
  let s2 : Store :=
    { s with
      hitlTasks :=
        s.hitlTasks.map (fun kv =>
          if kv.1 = id then
            (kv.1,
             { kv.2 with
               status := status
               reviewerId := some reviewerId
               reviewedAt := some now
               reviewNotes := notes })
          else kv) }
  match findEntry s2.hitlTasks id with
  | some t => Except.ok (t, s2)
  | none => Except.error ShieldError.notFound

/-- The response body of the decision endpoint. -/
structure HitlDecisionResponse where
  taskId : Nat
  status : HitlStatus
  message : Str
deriving DecidableEq

/-- The BadRequest message for an invalid decision string. -/
def invalidDecisionMsg (decision : Str) : Str :=
  ("Invalid decision ").toList ++ [qc] ++ decision ++ [qc]
    ++ (". Must be ").toList ++ [qc] ++ ("approve").toList ++ [qc]
    ++ (" or ").toList ++ [qc] ++ ("reject").toList ++ [qc]

/-- The BadRequest message when the task already carries a terminal
status; it names the task and its current status. -/
def alreadyDecidedMsg (id : Nat) (status : HitlStatus) : Str :=
  ("Task ").toList ++ natToStr id ++ (" is already ").toList ++ hitlStatusStr status

/-- The confirmation message of a recorded decision. -/
def decisionRecordedMsg (id : Nat) (status : HitlStatus) : Str :=
  ("Task ").toList ++ natToStr id ++ (" has been ").toList ++ hitlStatusStr status

/-- handlers::submit_hitl_decision: parse the decision string, load the
task, require Pending (a read-then-check in the handler, not in the
update), then update. -/
def submitHitlDecision (s : Store) (id : Nat) (decision : Str) (reviewerId : Str)
    (notes : Option Str) (now : Int) :
    Except ShieldError (HitlDecisionResponse × Store) :=
  let d := lowerStr decision
  let parsed : Option HitlStatus :=
    if d = ("approve").toList ∨ d = ("approved").toList then some HitlStatus.approved
    else if d = ("reject").toList ∨ d = ("rejected").toList then some HitlStatus.rejected
    else none
  match parsed with
  | none => Except.error (ShieldError.badRequest (invalidDecisionMsg decision))
  | some status =>
      match findEntry s.hitlTasks id with
      | none => Except.error ShieldError.notFound
      | some existing =>
          if existing.status ≠ HitlStatus.pending then
            Except.error (ShieldError.badRequest (alreadyDecidedMsg id existing.status))
          else
            match updateHitlTask s id status reviewerId notes now with
            | Except.error e => Except.error e
            | Except.ok (updated, s2) =>
                Except.ok
                  ({ taskId := id
                     status := updated.status
                     message := decisionRecordedMsg id status }, s2)

/-! ## Spec-side comparison definitions -/

/-- The rule ids of a triggered-rule list. -/
def ruleIdsOf (rules : List TriggeredRule) : List Str :=
  rules.map (fun r => r.ruleId)

/-- The amount-rule firing pattern exactly as claim C5 words it: missing
amount yields AMOUNT_MISSING; AMOUNT_INVALID fires when the amount is
nonpositive, and only otherwise ("else") the threshold chain fires;
independently AMOUNT_SUSPICIOUS_ROUND fires on multiples of 1000 above
1000.  Stated over the engine's rules to compare the two. -/
def amountRulesSpec (cfg : SafetyConfig) (a : Action) : Prop :=
  (a.actionType = ActionType.transferFunds ∨ a.actionType = ActionType.payBill) →
    (match extractAmount a with
     | none => ruleIdsOf (checkAmountRules cfg a) = [("AMOUNT_MISSING").toList]
     | some amount =>
         ((("AMOUNT_INVALID").toList ∈ ruleIdsOf (checkAmountRules cfg a)) ↔ amount ≤ 0)
         ∧ ((("AMOUNT_EXCEEDS_HITL_THRESHOLD").toList ∈ ruleIdsOf (checkAmountRules cfg a))
             ↔ (0 < amount ∧ cfg.hitlThreshold < amount))
         ∧ ((("AMOUNT_EXCEEDS_AUTO_LIMIT").toList ∈ ruleIdsOf (checkAmountRules cfg a))
             ↔ (0 < amount ∧ amount ≤ cfg.hitlThreshold ∧ cfg.maxAutoAmount < amount))
         ∧ ((("AMOUNT_SUSPICIOUS_ROUND").toList ∈ ruleIdsOf (checkAmountRules cfg a))
             ↔ (1000 < amount ∧ ∃ k : ℤ, amount = 1000 * k)))

/-- Amount extraction exactly as claim C7 words it: like the engine's
extract_amount_from_text, but with the number-after-a-verb pattern ranging
over ALL ten financial verbs, not the engine's five-verb subset. -/
def specExtractAmountFromText (text : Str) : Option ℚ :=
  let textLower := lowerStr text
  match amountPattern1 text with
  | some amount => some amount
  | none =>
      match amountPattern2 (splitWhitespace textLower) none with
      | some amount => some amount
      | none => amountPattern3 textLower financialKeywords

/-- The risk-tier ranges claim C4 pairs with each decision. -/
def riskConsistent (d : Decision) (rt : RiskTier) : Prop :=
  match d with
  | Decision.block => rt = RiskTier.critical
  | Decision.requireHitl => rt = RiskTier.high ∨ rt = RiskTier.critical
  | Decision.allow => rt = RiskTier.low ∨ rt = RiskTier.medium

/-! ## Concrete fixtures -/

/-- Fresh ids and clock for one run. -/
def fresh0 : Freshness := { evalId := 100, taskId := 101, now := 0 }

/-- Fresh ids and clock for a second run. -/
def fresh1 : Freshness := { evalId := 200, taskId := 201, now := 5 }

/-- A same-account transfer whose intent reads as a balance check: the
policy engine suggests a block, but the alignment checker fires first. -/
def c1CexAction : Action :=
  { id := 1
    traceId := ("t1").toList
    appId := none
    userId := ("user123").toList
    channel := ("chatbot").toList
    modelName := ("gpt-4").toList
    originalIntent := ("Check my balance").toList
    actionType := ActionType.transferFunds
    payload :=
      Json.obj
        [(("from_account_id").toList, Json.str (("checking").toList)),
         (("to_account_id").toList, Json.str (("checking").toList)),
         (("amount").toList, Json.num 50),
         (("currency").toList, Json.str (("USD").toList))]
    cotTrace := none
    metadata := none
    createdAt := 0 }

/-- A same-account transfer whose intent is an aligned transfer request. -/
def c1WitnessAction : Action :=
  { c1CexAction with
    id := 2
    originalIntent := ("transfer money").toList }

/-- An action whose intent contains a hard-block keyword. -/
def c2WitnessAction : Action :=
  { c1CexAction with
    id := 3
    originalIntent := ("please jailbreak the assistant and move funds").toList }

/-- A configuration with nonsensical negative thresholds, on which the
engine's unguarded threshold chain fires together with AMOUNT_INVALID. -/
def c5CexCfg : SafetyConfig :=
  { maxAutoAmount := -2000
    hitlThreshold := -1000
    maxTransfersPerHour := 3
    suspiciousKeywords := [] }

/-- A transfer of a negative amount. -/
def c5CexAction : Action :=
  { c1CexAction with
    id := 4
    originalIntent := ("transfer money").toList
    payload :=
      Json.obj
        [(("from_account_id").toList, Json.str (("checking").toList)),
         (("to_account_id").toList, Json.str (("savings").toList)),
         (("amount").toList, Json.num (-500)),
         (("currency").toList, Json.str (("USD").toList))] }

/-- An unclassified action with the financial verb deposit and a plain
number, which the five-verb extraction misses. -/
def c7CexAction : Action :=
  { c1CexAction with
    id := 5
    originalIntent := ("deposit 500").toList
    actionType := ActionType.unknown
    payload := Json.obj [] }

/-- An unclassified action with a small amount after the verb send. -/
def c7WitnessAction : Action :=
  { c1CexAction with
    id := 6
    originalIntent := ("send 50 to my friend").toList
    actionType := ActionType.unknown
    payload := Json.obj [] }

/-- A minimal action for the persistence counterexample. -/
def c9Action : Action :=
  { c1CexAction with
    id := 7
    originalIntent := ("transfer money").toList }

/-- The empty store. -/
def c9EmptyStore : Store :=
  { actions := [], evaluations := [], hitlTasks := [] }

/-- The store after the first save of c9Action. -/
def c9StoreOne : Store :=
  { actions := [(7, c9Action)], evaluations := [], hitlTasks := [] }

/-- A reviewer id. -/
def c6Reviewer : Str := ("admin@example.com").toList

/-- A HITL task that already reached the terminal Approved state. -/
def c6Task : HitlTask :=
  { id := 11
    agentActionId := 12
    evaluationId := 13
    status := HitlStatus.approved
    reviewerId := some c6Reviewer
    reviewedAt := some 10
    reviewNotes := none
    createdAt := 1 }

/-- A store holding only the approved task. -/
def c6Store : Store :=
  { actions := [], evaluations := [], hitlTasks := [(11, c6Task)] }

/-- What the unconditional repository update turns the approved task
into when asked to reject it. -/
def c6TaskAfter : HitlTask :=
  { c6Task with
    status := HitlStatus.rejected
    reviewerId := some (("reviewer2").toList)
    reviewedAt := some 20
    reviewNotes := none }

/-- The store after the overwriting update. -/
def c6StoreAfter : Store :=
  { actions := [], evaluations := [], hitlTasks := [(11, c6TaskAfter)] }

/-- First of two actions with identical scannable fields. -/
def c10ActionA : Action :=
  { id := 21
    traceId := ("trace-a").toList
    appId := none
    userId := ("alice").toList
    channel := ("chatbot").toList
    modelName := ("gpt-4").toList
    originalIntent := ("Transfer 500 to my savings").toList
    actionType := ActionType.transferFunds
    payload :=
      Json.obj
        [(("from_account_id").toList, Json.str (("checking").toList)),
         (("to_account_id").toList, Json.str (("savings").toList)),
         (("amount").toList, Json.num 500),
         (("currency").toList, Json.str (("USD").toList))]
    cotTrace := none
    metadata := none
    createdAt := 0 }

/-- Second action: the same scannable fields, a different id, user and
creation time. -/
def c10ActionB : Action :=
  { c10ActionA with
    id := 22
    traceId := ("trace-b").toList
    userId := ("bob").toList
    createdAt := 9 }

/-! # Theorems -/

/-- The policy outcome always carries the concatenation of the amount
rules and the action-type rules. -/
theorem evaluatePolicies_triggered (cfg : SafetyConfig) (a : Action) :
    (evaluatePolicies cfg a).triggeredRules
      = checkAmountRules cfg a ++ checkActionTypeRules cfg a := by
  simp only [evaluatePolicies]
  split_ifs with h1 h2 h3 <;>
    simp_all [PolicyOutcome.allow, PolicyOutcome.blockOutcome, PolicyOutcome.requireHitl]

/-- The risk tier the merge pairs with each decision lies in the claimed
range. -/
theorem mergeRisk_consistent (fw : FirewallOutcome) (po : PolicyOutcome) (d : Decision) :
    riskConsistent d (mergeRisk fw po d) := by
  cases d with
  | block => simp [mergeRisk, riskConsistent]
  | requireHitl => simp [mergeRisk, riskConsistent]
  | allow =>
      simp only [mergeRisk, riskConsistent]
      split <;> simp

/-- C4: for every action, configuration, strictness and fresh ids, the
evaluation result satisfies the decision/risk-tier invariant: Block comes
with Critical, RequireHitl with High or Critical, Allow with Low or
Medium. -/
theorem c4_risk_tier_invariant (cfg : SafetyConfig) (strictMode : Bool) (fr : Freshness)
    (a : Action) :
    riskConsistent (coordinatorEvaluate cfg strictMode fr a).evaluation.decision
      (coordinatorEvaluate cfg strictMode fr a).evaluation.riskTier := by
  have hd : (coordinatorEvaluate cfg strictMode fr a).evaluation.decision
      = (runPipeline cfg strictMode a).decision := rfl
  have hr : (coordinatorEvaluate cfg strictMode fr a).evaluation.riskTier
      = (runPipeline cfg strictMode a).riskTier := rfl
  rw [hd, hr]
  unfold runPipeline
  cases hfw : keywordFirewallEvaluate cfg.suspiciousKeywords a with
  | blocked rs => simp [riskConsistent]
  | clean => simpa using mergeRisk_consistent _ _ _
  | suspicious rs => simpa using mergeRisk_consistent _ _ _

/-- C3: a HITL task is returned exactly when the final decision is
RequireHitl, and the returned task is Pending and references the evaluated
action and the returned evaluation. -/
theorem c3_hitl_task_iff_require_hitl (cfg : SafetyConfig) (strictMode : Bool)
    (fr : Freshness) (a : Action) :
    ((coordinatorEvaluate cfg strictMode fr a).hitlTask.isSome = true
      ↔ (coordinatorEvaluate cfg strictMode fr a).evaluation.decision = Decision.requireHitl)
    ∧ (match (coordinatorEvaluate cfg strictMode fr a).hitlTask with
       | some t =>
           t.status = HitlStatus.pending
           ∧ t.agentActionId = a.id
           ∧ t.evaluationId = (coordinatorEvaluate cfg strictMode fr a).evaluation.id
       | none => True) := by
  by_cases h : (runPipeline cfg strictMode a).decision = Decision.requireHitl <;>
    simp [coordinatorEvaluate, HitlTask.mkNew, h]

/-- The keyword firewall blocks whenever some hard-block keyword occurs
case-insensitively in the scannable text. -/
theorem keywordFirewall_blocks (suspiciousKeywords : List Str) (a : Action)
    (h : ∃ kw, kw ∈ blockKeywords
      ∧ strContains (lowerStr (getScannableText a)) (lowerStr kw) = true) :
    keywordFirewallEvaluate suspiciousKeywords a
      = FirewallOutcome.blocked
          ((containsAny (getScannableText a) blockKeywords).map blockedReason) := by
  obtain ⟨kw, hmem, hcon⟩ := h
  have hk : kw ∈ containsAny (getScannableText a) blockKeywords := by
    simp only [containsAny]
    exact List.mem_filter.mpr ⟨hmem, hcon⟩
  cases hB : containsAny (getScannableText a) blockKeywords with
  | nil => rw [hB] at hk; cases hk
  | cons x xs => simp [keywordFirewallEvaluate, hB]

/-- C2: any action whose scannable text (intent, chain of thought, string
payload values) contains a hard-block keyword case-insensitively is
decided Block with risk tier Critical, for every configuration,
strictness and fresh ids. -/
theorem c2_hard_block_keyword_blocks (cfg : SafetyConfig) (strictMode : Bool)
    (fr : Freshness) (a : Action)
    (h : ∃ kw, kw ∈ blockKeywords
      ∧ strContains (lowerStr (getScannableText a)) (lowerStr kw) = true) :
    (coordinatorEvaluate cfg strictMode fr a).evaluation.decision = Decision.block
    ∧ (coordinatorEvaluate cfg strictMode fr a).evaluation.riskTier = RiskTier.critical := by
  have hfw := keywordFirewall_blocks cfg.suspiciousKeywords a h
  have hrun : runPipeline cfg strictMode a
      = { decision := Decision.block
          riskTier := RiskTier.critical
          reasons := (containsAny (getScannableText a) blockKeywords).map blockedReason
          ruleHits := [firewallBlockId]
          neuralSignals := [firewallTriggeredSignal] } := by
    unfold runPipeline
    rw [hfw]
  exact ⟨by simp [coordinatorEvaluate, hrun], by simp [coordinatorEvaluate, hrun]⟩

/-- C2 witness: the concrete action whose intent contains the keyword
jailbreak is blocked at critical risk. -/
theorem c2_witness :
    (coordinatorEvaluate defaultSafetyConfig false fresh0 c2WitnessAction).evaluation.decision
      = Decision.block
    ∧ (coordinatorEvaluate defaultSafetyConfig false fresh0 c2WitnessAction).evaluation.riskTier
      = RiskTier.critical :=
  c2_hard_block_keyword_blocks defaultSafetyConfig false fresh0 c2WitnessAction
    ⟨("jailbreak").toList, by decide, by decide⟩

/-- A suggests-block rule among the triggered rules makes the strictest
policy decision Block. -/
theorem strictest_block_of_mem (po : PolicyOutcome) (r : TriggeredRule)
    (hr : r ∈ po.triggeredRules) (hb : r.suggestsBlock = true) :
    strictestDecision po = some Decision.block := by
  unfold strictestDecision
  rw [if_pos]
  exact List.any_eq_true.mpr ⟨r, hr, hb⟩

/-- A transfer whose payload names the same from and to account triggers
exactly the TRANSFER_SAME_ACCOUNT structural rule. -/
theorem sameAccount_rule_fires (cfg : SafetyConfig) (a : Action) (acct : Str)
    (hType : a.actionType = ActionType.transferFunds)
    (hFrom : (jsonGet a.payload (("from_account_id").toList)).bind jsonAsStr = some acct)
    (hTo : (jsonGet a.payload (("to_account_id").toList)).bind jsonAsStr = some acct) :
    checkActionTypeRules cfg a = [transferSameAccountRule] := by
  cases hp : a.payload with
  | obj fields =>
      rw [hp] at hFrom hTo
      simp only [checkActionTypeRules, hType, hp, hFrom, hTo]
      simp
  | str s => rw [hp] at hFrom; simp [jsonGet] at hFrom
  | num q => rw [hp] at hFrom; simp [jsonGet] at hFrom
  | other => rw [hp] at hFrom; simp [jsonGet] at hFrom

/-- C1 (amended): a TransferFunds action whose payload carries equal
string from_account_id and to_account_id is decided Block, except that
when the firewall does not block and the alignment checker returns
Misaligned the decision is RequireHitl (misalignment is merged before the
policy engine's block suggestion). -/
theorem c1_same_account_verdict (cfg : SafetyConfig) (strictMode : Bool) (fr : Freshness)
    (a : Action) (acct : Str)
    (hType : a.actionType = ActionType.transferFunds)
    (hFrom : (jsonGet a.payload (("from_account_id").toList)).bind jsonAsStr = some acct)
    (hTo : (jsonGet a.payload (("to_account_id").toList)).bind jsonAsStr = some acct) :
    (coordinatorEvaluate cfg strictMode fr a).evaluation.decision = Decision.block
    ∨ (alignmentIsMisaligned (checkAlignment strictMode a) = true
       ∧ (coordinatorEvaluate cfg strictMode fr a).evaluation.decision
          = Decision.requireHitl) := by
  have hrules := sameAccount_rule_fires cfg a acct hType hFrom hTo
  have hmem : transferSameAccountRule ∈ (evaluatePolicies cfg a).triggeredRules := by
    rw [evaluatePolicies_triggered, hrules]
    exact List.mem_append_right _ (List.mem_singleton.mpr rfl)
  have hstrict : strictestDecision (evaluatePolicies cfg a) = some Decision.block :=
    strictest_block_of_mem _ _ hmem rfl
  have hd : (coordinatorEvaluate cfg strictMode fr a).evaluation.decision
      = (runPipeline cfg strictMode a).decision := rfl
  rw [hd]
  unfold runPipeline
  cases hfw : keywordFirewallEvaluate cfg.suspiciousKeywords a with
  | blocked rs => left; rfl
  | clean =>
      by_cases hal : alignmentIsMisaligned (checkAlignment strictMode a) = true
      · right
        exact ⟨hal, by simp [mergeDecision, firewallIsBlocked, hal]⟩
      · left
        have hal2 : alignmentIsMisaligned (checkAlignment strictMode a) = false := by
          simpa using hal
        simp [mergeDecision, firewallIsBlocked, hal2, hstrict]
  | suspicious rs =>
      by_cases hal : alignmentIsMisaligned (checkAlignment strictMode a) = true
      · right
        exact ⟨hal, by simp [mergeDecision, firewallIsBlocked, hal]⟩
      · left
        have hal2 : alignmentIsMisaligned (checkAlignment strictMode a) = false := by
          simpa using hal
        simp [mergeDecision, firewallIsBlocked, hal2, hstrict]

/-- C1 counterexample: the same-account transfer whose intent reads as a
balance check is decided RequireHitl, not Block — the claim's "regardless
of original_intent, in particular also when the alignment checker returns
Misaligned" fails on the code. -/
theorem c1_counterexample :
    (jsonGet c1CexAction.payload (("from_account_id").toList)).bind jsonAsStr
        = some (("checking").toList)
    ∧ (jsonGet c1CexAction.payload (("to_account_id").toList)).bind jsonAsStr
        = some (("checking").toList)
    ∧ c1CexAction.actionType = ActionType.transferFunds
    ∧ alignmentIsMisaligned (checkAlignment false c1CexAction) = true
    ∧ (coordinatorEvaluate defaultSafetyConfig false fresh0 c1CexAction).evaluation.decision
        = Decision.requireHitl
    ∧ Decision.requireHitl ≠ Decision.block :=
  ⟨by decide, by decide, rfl, by decide, by decide, by decide⟩

/-- C1 witness: the same-account transfer with an aligned transfer intent
satisfies the amended verdict (it is in fact blocked). -/
theorem c1_witness :
    (coordinatorEvaluate defaultSafetyConfig false fresh0 c1WitnessAction).evaluation.decision
        = Decision.block
    ∨ (alignmentIsMisaligned (checkAlignment false c1WitnessAction) = true
       ∧ (coordinatorEvaluate defaultSafetyConfig false fresh0 c1WitnessAction).evaluation.decision
          = Decision.requireHitl) :=
  c1_same_account_verdict defaultSafetyConfig false fresh0 c1WitnessAction
    (("checking").toList) rfl (by decide) (by decide)

/-- Truncation is the identity on integers. -/
theorem ratTrunc_intCast (k : ℤ) : ratTrunc (k : ℚ) = k := by
  unfold ratTrunc
  split_ifs with h
  · exact Int.floor_intCast k
  · have h2 : (-(k : ℚ)) = ((-k : ℤ) : ℚ) := by push_cast; ring
    rw [h2, Int.floor_intCast]
    ring

/-- The engine's float test for a round amount (equal to its rounding and
with zero remainder mod 1000, above 1000) is exactly being an integer
multiple of 1000 above 1000. -/
theorem roundCond_iff (q : ℚ) :
    (1000 < q ∧ q = (f64Round q : ℚ) ∧ ratFmod q 1000 = 0)
      ↔ (1000 < q ∧ ∃ k : ℤ, q = 1000 * k) := by
  constructor
  · rintro ⟨h1, _, h3⟩
    refine ⟨h1, ratTrunc (q / 1000), ?_⟩
    unfold ratFmod at h3
    linarith
  · rintro ⟨h1, k, hk⟩
    subst hk
    refine ⟨h1, ?_, ?_⟩
    · have h0 : (0 : ℚ) ≤ 1000 * k := by linarith
      unfold f64Round
      rw [if_pos h0]
      have h2 : (1000 * (k : ℚ)) + 1 / 2 = 1 / 2 + ((1000 * k : ℤ) : ℚ) := by
        push_cast; ring
      rw [h2, Int.floor_add_int]
      have h3 : ⌊(1 / 2 : ℚ)⌋ = 0 := by norm_num
      rw [h3]
      push_cast; ring
    · unfold ratFmod
      have h2 : (1000 * (k : ℚ)) / 1000 = (k : ℚ) := by
        field_simp
      rw [h2, ratTrunc_intCast]
      ring

/-- Membership in the rule ids of a one-rule conditional chunk. -/
theorem mem_map_ruleId_ite (x : Str) (c : Prop) [Decidable c] (r : TriggeredRule) :
    (x ∈ (if c then [r] else []).map (fun r2 => r2.ruleId)) ↔ (c ∧ x = r.ruleId) := by
  split_ifs with h <;> simp [h]

/-- Membership in the rule ids of a two-branch conditional chunk. -/
theorem mem_map_ruleId_ite2 (x : Str) (c1 c2 : Prop) [Decidable c1] [Decidable c2]
    (r1 r2 : TriggeredRule) :
    (x ∈ (if c1 then [r1] else if c2 then [r2] else []).map (fun r3 => r3.ruleId))
      ↔ ((c1 ∧ x = r1.ruleId) ∨ (¬c1 ∧ c2 ∧ x = r2.ruleId)) := by
  split_ifs with h1 h2 <;> simp [*]

/-- An element of a one-rule conditional chunk is that rule. -/
theorem mem_ite_singleton {α : Type} {r x : α} {c : Prop} [Decidable c]
    (h : r ∈ (if c then [x] else [])) : r = x := by
  split_ifs at h with hc
  · simpa using h
  · cases h

/-- An element of a two-branch conditional chunk is one of its rules. -/
theorem mem_ite2_singleton {α : Type} {r x1 x2 : α} {c1 c2 : Prop} [Decidable c1]
    [Decidable c2] (h : r ∈ (if c1 then [x1] else if c2 then [x2] else [])) :
    r = x1 ∨ r = x2 := by
  split_ifs at h with h1 h2
  · exact Or.inl (by simpa using h)
  · exact Or.inr (by simpa using h)
  · cases h

/-- C5 (amended): the amount rules fire as specified except that the
threshold chain is applied independently of the sign check (not behind an
"else" after AMOUNT_INVALID): for monetary actions with an amount,
AMOUNT_EXCEEDS_HITL_THRESHOLD fires iff the amount exceeds the HITL
threshold, AMOUNT_EXCEEDS_AUTO_LIMIT fires iff it does not but exceeds
the auto limit, AMOUNT_INVALID fires iff the amount is nonpositive,
AMOUNT_SUSPICIOUS_ROUND fires iff the amount is a multiple of 1000 above
1000, AMOUNT_MISSING never fires with an amount present and is the only
rule when the amount is absent, no amount rule fires for other action
types, and AMOUNT_INVALID is the only amount rule that suggests a block
while all others require HITL. -/
theorem c5_amount_rules_characterization (cfg : SafetyConfig) (a : Action) :
    (¬(a.actionType = ActionType.transferFunds ∨ a.actionType = ActionType.payBill) →
        checkAmountRules cfg a = [])
    ∧ ((a.actionType = ActionType.transferFunds ∨ a.actionType = ActionType.payBill) →
        extractAmount a = none → checkAmountRules cfg a = [amountMissingRule])
    ∧ (∀ amount : ℚ,
        (a.actionType = ActionType.transferFunds ∨ a.actionType = ActionType.payBill) →
        extractAmount a = some amount →
        (((("AMOUNT_EXCEEDS_HITL_THRESHOLD").toList ∈ ruleIdsOf (checkAmountRules cfg a))
            ↔ cfg.hitlThreshold < amount)
         ∧ ((("AMOUNT_EXCEEDS_AUTO_LIMIT").toList ∈ ruleIdsOf (checkAmountRules cfg a))
            ↔ (amount ≤ cfg.hitlThreshold ∧ cfg.maxAutoAmount < amount))
         ∧ ((("AMOUNT_INVALID").toList ∈ ruleIdsOf (checkAmountRules cfg a))
            ↔ amount ≤ 0)
         ∧ ((("AMOUNT_SUSPICIOUS_ROUND").toList ∈ ruleIdsOf (checkAmountRules cfg a))
            ↔ (1000 < amount ∧ ∃ k : ℤ, amount = 1000 * k))
         ∧ ((("AMOUNT_MISSING").toList ∈ ruleIdsOf (checkAmountRules cfg a)) → False)
         ∧ (∀ r, r ∈ checkAmountRules cfg a →
              ((r.suggestsBlock = true ↔ r.ruleId = ("AMOUNT_INVALID").toList)
               ∧ (r.requiresHitl = true ↔ r.ruleId ≠ ("AMOUNT_INVALID").toList))))) := by
  refine ⟨?_, ?_, ?_⟩
  · intro h
    unfold checkAmountRules
    rw [if_neg h]
  · intro hmon hnone
    unfold checkAmountRules
    rw [if_pos hmon, hnone]
  · intro amount hmon hsome
    have hrules : checkAmountRules cfg a =
        (if cfg.hitlThreshold < amount then [amountExceedsHitlRule cfg amount]
         else if cfg.maxAutoAmount < amount then [amountExceedsAutoRule cfg amount]
         else [])
        ++ (if amount ≤ 0 then [amountInvalidRule amount] else [])
        ++ (if 1000 < amount ∧ amount = (f64Round amount : ℚ) ∧ ratFmod amount 1000 = 0
            then [amountSuspiciousRoundRule amount] else []) := by
      unfold checkAmountRules
      rw [if_pos hmon, hsome]
    have n1 : (("AMOUNT_EXCEEDS_HITL_THRESHOLD").toList : Str)
        ≠ ("AMOUNT_EXCEEDS_AUTO_LIMIT").toList := by decide
    have n2 : (("AMOUNT_EXCEEDS_HITL_THRESHOLD").toList : Str)
        ≠ ("AMOUNT_INVALID").toList := by decide
    have n3 : (("AMOUNT_EXCEEDS_HITL_THRESHOLD").toList : Str)
        ≠ ("AMOUNT_SUSPICIOUS_ROUND").toList := by decide
    have n4 : (("AMOUNT_EXCEEDS_AUTO_LIMIT").toList : Str)
        ≠ ("AMOUNT_EXCEEDS_HITL_THRESHOLD").toList := by decide
    have n5 : (("AMOUNT_EXCEEDS_AUTO_LIMIT").toList : Str)
        ≠ ("AMOUNT_INVALID").toList := by decide
    have n6 : (("AMOUNT_EXCEEDS_AUTO_LIMIT").toList : Str)
        ≠ ("AMOUNT_SUSPICIOUS_ROUND").toList := by decide
    have n7 : (("AMOUNT_INVALID").toList : Str)
        ≠ ("AMOUNT_EXCEEDS_HITL_THRESHOLD").toList := by decide
    have n8 : (("AMOUNT_INVALID").toList : Str)
        ≠ ("AMOUNT_EXCEEDS_AUTO_LIMIT").toList := by decide
    have n9 : (("AMOUNT_INVALID").toList : Str)
        ≠ ("AMOUNT_SUSPICIOUS_ROUND").toList := by decide
    have n10 : (("AMOUNT_SUSPICIOUS_ROUND").toList : Str)
        ≠ ("AMOUNT_EXCEEDS_HITL_THRESHOLD").toList := by decide
    have n11 : (("AMOUNT_SUSPICIOUS_ROUND").toList : Str)
        ≠ ("AMOUNT_EXCEEDS_AUTO_LIMIT").toList := by decide
    have n12 : (("AMOUNT_SUSPICIOUS_ROUND").toList : Str)
        ≠ ("AMOUNT_INVALID").toList := by decide
    have n13 : (("AMOUNT_MISSING").toList : Str)
        ≠ ("AMOUNT_EXCEEDS_HITL_THRESHOLD").toList := by decide
    have n14 : (("AMOUNT_MISSING").toList : Str)
        ≠ ("AMOUNT_EXCEEDS_AUTO_LIMIT").toList := by decide
    have n15 : (("AMOUNT_MISSING").toList : Str)
        ≠ ("AMOUNT_INVALID").toList := by decide
    have n16 : (("AMOUNT_MISSING").toList : Str)
        ≠ ("AMOUNT_SUSPICIOUS_ROUND").toList := by decide
    have key : ∀ x : Str, x ∈ ruleIdsOf (checkAmountRules cfg a) ↔
        ((((cfg.hitlThreshold < amount ∧ x = (amountExceedsHitlRule cfg amount).ruleId)
            ∨ (¬(cfg.hitlThreshold < amount) ∧ cfg.maxAutoAmount < amount
                ∧ x = (amountExceedsAutoRule cfg amount).ruleId))
          ∨ ((amount ≤ 0) ∧ x = (amountInvalidRule amount).ruleId))
          ∨ ((1000 < amount ∧ amount = (f64Round amount : ℚ) ∧ ratFmod amount 1000 = 0)
              ∧ x = (amountSuspiciousRoundRule amount).ruleId)) := by
      intro x
      rw [hrules]
      simp only [ruleIdsOf, List.map_append, List.mem_append, mem_map_ruleId_ite,
        mem_map_ruleId_ite2]
    refine ⟨?_, ?_, ?_, ?_, ?_, ?_⟩
    · rw [key]
      constructor
      · rintro (((⟨hc, _⟩ | ⟨_, _, hx⟩) | ⟨_, hx⟩) | ⟨_, hx⟩)
        · exact hc
        · exact absurd hx.symm n4
        · exact absurd hx.symm n7
        · exact absurd hx.symm n10
      · intro hc
        exact Or.inl (Or.inl (Or.inl ⟨hc, rfl⟩))
    · rw [key]
      constructor
      · rintro (((⟨_, hx⟩ | ⟨hn, hc, _⟩) | ⟨_, hx⟩) | ⟨_, hx⟩)
        · exact absurd hx.symm n1
        · exact ⟨le_of_not_lt hn, hc⟩
        · exact absurd hx.symm n8
        · exact absurd hx.symm n11
      · rintro ⟨hle, hc⟩
        exact Or.inl (Or.inl (Or.inr ⟨not_lt.mpr hle, hc, rfl⟩))
    · rw [key]
      constructor
      · rintro (((⟨_, hx⟩ | ⟨_, _, hx⟩) | ⟨hc, _⟩) | ⟨_, hx⟩)
        · exact absurd hx.symm n2
        · exact absurd hx.symm n5
        · exact hc
        · exact absurd hx.symm n12
      · intro hc
        exact Or.inl (Or.inr ⟨hc, rfl⟩)
    · rw [key]
      constructor
      · rintro (((⟨_, hx⟩ | ⟨_, _, hx⟩) | ⟨_, hx⟩) | ⟨hc, _⟩)
        · exact absurd hx.symm n3
        · exact absurd hx.symm n6
        · exact absurd hx.symm n9
        · exact (roundCond_iff amount).mp hc
      · intro hc
        exact Or.inr ⟨(roundCond_iff amount).mpr hc, rfl⟩
    · rw [key]
      rintro (((⟨_, hx⟩ | ⟨_, _, hx⟩) | ⟨_, hx⟩) | ⟨_, hx⟩)
      · exact absurd hx n13
      · exact absurd hx n14
      · exact absurd hx n15
      · exact absurd hx n16
    · intro r hr
      rw [hrules] at hr
      rcases List.mem_append.mp hr with h12 | h3
      · rcases List.mem_append.mp h12 with h1 | h2
        · rcases mem_ite2_singleton h1 with h | h <;> subst h
          · exact ⟨by simp [amountExceedsHitlRule, n2], by simp [amountExceedsHitlRule, n2]⟩
          · exact ⟨by simp [amountExceedsAutoRule, n5], by simp [amountExceedsAutoRule, n5]⟩
        · have h := mem_ite_singleton h2
          subst h
          exact ⟨by simp [amountInvalidRule], by simp [amountInvalidRule]⟩
      · have h := mem_ite_singleton h3
        subst h
        exact ⟨by simp [amountSuspiciousRoundRule, n12], by simp [amountSuspiciousRoundRule, n12]⟩

set_option maxHeartbeats 1000000 in
/-- C5 counterexample: on a configuration with a negative HITL threshold
and a transfer of -500, the engine fires AMOUNT_EXCEEDS_HITL_THRESHOLD
alongside AMOUNT_INVALID although the amount is nonpositive, refuting the
claim's else-chain reading. -/
theorem c5_counterexample : ¬ amountRulesSpec c5CexCfg c5CexAction := by
  intro h
  have h2 := h (Or.inl rfl)
  have he : extractAmount c5CexAction = some (-500 : ℚ) := by decide
  rw [he] at h2
  have hin : (("AMOUNT_EXCEEDS_HITL_THRESHOLD").toList : Str)
      ∈ ruleIdsOf (checkAmountRules c5CexCfg c5CexAction) := by decide
  have h3 := (h2.2.1).mp hin
  have h4 : ¬((0 : ℚ) < -500) := by norm_num
  exact h4 h3.1

/-- C6: the decision handler refuses to decide the already-approved task
with a BadRequest carrying the current status, but the repository update
itself is unconditional on the status: applied directly to the approved
task it succeeds and overwrites the terminal state with Rejected,
contradicting the claimed compare-and-swap enforcement. -/
theorem c6_update_overwrites_terminal_state :
    getHitlTask c6Store 11 = Except.ok c6Task
    ∧ c6Task.status = HitlStatus.approved
    ∧ submitHitlDecision c6Store 11 (("reject").toList) (("reviewer2").toList) none 20
        = Except.error (ShieldError.badRequest (alreadyDecidedMsg 11 HitlStatus.approved))
    ∧ updateHitlTask c6Store 11 HitlStatus.rejected (("reviewer2").toList) none 20
        = Except.ok (c6TaskAfter, c6StoreAfter)
    ∧ c6TaskAfter.status = HitlStatus.rejected :=
  ⟨rfl, rfl, rfl, rfl, rfl⟩

/-- C7 (amended): for Unknown actions whose intent contains a financial
keyword, the engine emits UNCLASSIFIED_HIGH_VALUE_TRANSFER (suggesting a
block) above the HITL threshold, UNCLASSIFIED_TRANSFER_NEEDS_REVIEW
(requiring HITL) above the auto limit, UNCLASSIFIED_SMALL_TRANSFER
(neither) otherwise, and UNCLASSIFIED_FINANCIAL_INTENT (requiring HITL)
when no amount is extractable — where extraction is the engine's
extract_amount_from_text, whose number-after-a-verb pattern covers only
the five verbs transfer, send, pay, wire, withdraw. -/
theorem c7_unknown_heuristic_characterization (cfg : SafetyConfig) (a : Action)
    (hType : a.actionType = ActionType.unknown)
    (hKw : financialKeywords.any (fun kw => strContains (lowerStr a.originalIntent) kw)
        = true) :
    (evaluatePolicies cfg a).triggeredRules =
      (match extractAmountFromText a.originalIntent with
       | some amount =>
           if cfg.hitlThreshold < amount then [unclassifiedHighValueRule amount]
           else if cfg.maxAutoAmount < amount then [unclassifiedNeedsReviewRule amount]
           else [unclassifiedSmallRule amount]
       | none => [unclassifiedFinancialIntentRule])
    ∧ strictestDecision (evaluatePolicies cfg a) =
      (match extractAmountFromText a.originalIntent with
       | some amount =>
           if cfg.hitlThreshold < amount then some Decision.block
           else if cfg.maxAutoAmount < amount then some Decision.requireHitl
           else some Decision.allow
       | none => some Decision.requireHitl) := by
  have hamt : extractAmount a = none := by
    unfold extractAmount
    rw [hType]
  have hAmtRules : checkAmountRules cfg a = [] := by
    unfold checkAmountRules
    rw [if_neg]
    rintro (h | h) <;> simp [hType] at h
  cases hx : extractAmountFromText a.originalIntent with
  | none =>
      have ht : checkActionTypeRules cfg a = [unclassifiedFinancialIntentRule] := by
        simp [checkActionTypeRules, hType, hKw, hamt, optOr, hx]
      have he : (evaluatePolicies cfg a).triggeredRules = [unclassifiedFinancialIntentRule] := by
        rw [evaluatePolicies_triggered, hAmtRules, ht, List.nil_append]
      refine ⟨he, ?_⟩
      unfold strictestDecision
      rw [he]
      simp [unclassifiedFinancialIntentRule]
  | some amount =>
      have ht : checkActionTypeRules cfg a =
          (if cfg.hitlThreshold < amount then [unclassifiedHighValueRule amount]
           else if cfg.maxAutoAmount < amount then [unclassifiedNeedsReviewRule amount]
           else [unclassifiedSmallRule amount]) := by
        simp [checkActionTypeRules, hType, hKw, hamt, optOr, hx]
      by_cases h1 : cfg.hitlThreshold < amount
      · have he : (evaluatePolicies cfg a).triggeredRules
            = [unclassifiedHighValueRule amount] := by
          rw [evaluatePolicies_triggered, hAmtRules, ht, if_pos h1, List.nil_append]
        refine ⟨by rw [he]; simp [h1], ?_⟩
        unfold strictestDecision
        rw [he]
        simp [unclassifiedHighValueRule, h1]
      · by_cases h2 : cfg.maxAutoAmount < amount
        · have he : (evaluatePolicies cfg a).triggeredRules
              = [unclassifiedNeedsReviewRule amount] := by
            rw [evaluatePolicies_triggered, hAmtRules, ht, if_neg h1, if_pos h2,
              List.nil_append]
          refine ⟨by rw [he]; simp [h1, h2], ?_⟩
          unfold strictestDecision
          rw [he]
          simp [unclassifiedNeedsReviewRule, h1, h2]
        · have ht2 : checkActionTypeRules cfg a = [unclassifiedSmallRule amount] := by
            rw [ht, if_neg h1, if_neg h2]
          have hev : evaluatePolicies cfg a =
              { decisionHint := some Decision.allow
                triggeredRules := [unclassifiedSmallRule amount] } := by
            simp only [evaluatePolicies, hAmtRules, ht2, List.nil_append]
            simp [unclassifiedSmallRule]
          refine ⟨?_, ?_⟩
          · rw [hev]
            simp [h1, h2]
          · rw [hev]
            simp [strictestDecision, unclassifiedSmallRule, h1, h2]

/-- C7 counterexample: the Unknown action with intent deposit 500 has an
amount extractable by the claim's wording (a number after the financial
verb deposit) in the review range, yet the engine emits the no-amount rule
UNCLASSIFIED_FINANCIAL_INTENT and not UNCLASSIFIED_TRANSFER_NEEDS_REVIEW,
because its extraction only knows five verbs. -/
theorem c7_counterexample :
    c7CexAction.actionType = ActionType.unknown
    ∧ financialKeywords.any
        (fun kw => strContains (lowerStr c7CexAction.originalIntent) kw) = true
    ∧ specExtractAmountFromText c7CexAction.originalIntent = some 500
    ∧ defaultSafetyConfig.maxAutoAmount < 500
    ∧ (500 : ℚ) ≤ defaultSafetyConfig.hitlThreshold
    ∧ ruleIdsOf (evaluatePolicies defaultSafetyConfig c7CexAction).triggeredRules
        = [("UNCLASSIFIED_FINANCIAL_INTENT").toList]
    ∧ ((("UNCLASSIFIED_TRANSFER_NEEDS_REVIEW").toList : Str)
        ∈ ruleIdsOf (evaluatePolicies defaultSafetyConfig c7CexAction).triggeredRules
          → False) :=
  ⟨rfl, by decide, by decide, by decide, by decide, by decide, by decide⟩

/-- C7 witness: on the Unknown action send 50 to my friend the amended
characterization yields the informational small-transfer rule and an
Allow hint. -/
theorem c7_witness :
    ruleIdsOf (evaluatePolicies defaultSafetyConfig c7WitnessAction).triggeredRules
        = [("UNCLASSIFIED_SMALL_TRANSFER").toList]
    ∧ strictestDecision (evaluatePolicies defaultSafetyConfig c7WitnessAction)
        = some Decision.allow := by
  have h := c7_unknown_heuristic_characterization defaultSafetyConfig c7WitnessAction
    rfl (by decide)
  refine ⟨?_, ?_⟩
  · rw [ruleIdsOf, h.1]; decide
  · rw [h.2]; decide

/-- C8: the heuristic alignment checker returns Misaligned whenever the
inferred intent type is read-only and the action type is a write class;
and with no inferable intent it returns Unknown in non-strict mode, while
in strict mode it returns Misaligned for TransferFunds or PayBill and
Unknown for every other action type. -/
theorem c8_alignment_checker (strictMode : Bool) (a : Action) :
    (∀ t, inferIntentType a.originalIntent = some t →
        (t = ActionType.getBalance ∨ t = ActionType.getTransactions) →
        (a.actionType = ActionType.transferFunds ∨ a.actionType = ActionType.payBill
          ∨ a.actionType = ActionType.closeAccount) →
        alignmentIsMisaligned (checkAlignment strictMode a) = true)
    ∧ (inferIntentType a.originalIntent = none →
        checkAlignment strictMode a =
          (if strictMode then
            (if a.actionType = ActionType.transferFunds
                ∨ a.actionType = ActionType.payBill then
              AlignmentOutcome.misaligned [cannotVerifyReason a.actionType]
             else AlignmentOutcome.unknown)
           else AlignmentOutcome.unknown)) := by
  constructor
  · intro t ht hread hwrite
    have hm : checkActionIntentMismatch strictMode t a.actionType a.originalIntent
        = some (readWriteReason a.originalIntent a.actionType) := by
      simp only [checkActionIntentMismatch]
      rw [if_pos ⟨hread, hwrite⟩]
    simp only [checkAlignment, ht, hm]
    rfl
  · intro hnone
    simp only [checkAlignment, hnone]
    cases strictMode <;> simp

/-- Appending a fresh key at the end makes it findable. -/
theorem findEntry_append_single {α : Type} (l : List (Nat × α)) (k : Nat) (v : α)
    (h : findEntry l k = none) : findEntry (l ++ [(k, v)]) k = some v := by
  induction l with
  | nil => simp [findEntry]
  | cons kv rest ih =>
      obtain ⟨k2, v2⟩ := kv
      simp only [findEntry] at h
      by_cases hk : k2 = k
      · rw [if_pos hk] at h
        exact absurd h (by simp)
      · rw [if_neg hk] at h
        simp only [List.cons_append, findEntry]
        rw [if_neg hk]
        exact ih h

/-- C9 (amended): a second save of the same entity is not an idempotent
success — it fails with the uniqueness violation of the primary-key
INSERT, leaving the store as the first call wrote it. -/
theorem c9_second_save_fails (s : Store) (a : Action) (e : EvaluationResult)
    (t : HitlTask) :
    (∀ s2, saveAction s a = Except.ok s2 →
        saveAction s2 a = Except.error ShieldError.uniqueViolation)
    ∧ (∀ s2, saveEvaluation s e = Except.ok s2 →
        saveEvaluation s2 e = Except.error ShieldError.uniqueViolation)
    ∧ (∀ s2, saveHitlTask s t = Except.ok s2 →
        saveHitlTask s2 t = Except.error ShieldError.uniqueViolation) := by
  refine ⟨?_, ?_, ?_⟩
  · intro s2 h
    unfold saveAction at h ⊢
    cases hf : findEntry s.actions a.id with
    | some v => rw [hf] at h; cases h
    | none =>
        rw [hf] at h
        cases h
        rw [findEntry_append_single s.actions a.id a hf]
  · intro s2 h
    unfold saveEvaluation at h ⊢
    cases hf : findEntry s.evaluations e.id with
    | some v => rw [hf] at h; cases h
    | none =>
        rw [hf] at h
        cases h
        rw [findEntry_append_single s.evaluations e.id e hf]
  · intro s2 h
    unfold saveHitlTask at h ⊢
    cases hf : findEntry s.hitlTasks t.id with
    | some v => rw [hf] at h; cases h
    | none =>
        rw [hf] at h
        cases h
        rw [findEntry_append_single s.hitlTasks t.id t hf]

/-- C9 counterexample: saving the same action twice is not idempotent —
the first call succeeds and the second fails with a uniqueness
violation. -/
theorem c9_counterexample :
    saveAction c9EmptyStore c9Action = Except.ok c9StoreOne
    ∧ saveAction c9StoreOne c9Action = Except.error ShieldError.uniqueViolation :=
  ⟨rfl, rfl⟩

/-- The pipeline output depends only on the intent, the chain of thought,
the payload and the action type — not on ids, user, channel, model,
metadata or timestamps. -/
theorem runPipeline_scannable_congr (cfg : SafetyConfig) (strictMode : Bool)
    (a b : Action)
    (h1 : a.originalIntent = b.originalIntent)
    (h2 : a.cotTrace = b.cotTrace)
    (h3 : a.payload = b.payload)
    (h4 : a.actionType = b.actionType) :
    runPipeline cfg strictMode a = runPipeline cfg strictMode b := by
  obtain ⟨i1, t1, ap1, u1, ch1, m1, o1, ty1, p1, ct1, md1, ca1⟩ := a
  obtain ⟨i2, t2, ap2, u2, ch2, m2, o2, ty2, p2, ct2, md2, ca2⟩ := b
  dsimp only at h1 h2 h3 h4
  subst h1
  subst h2
  subst h3
  subst h4
  rfl

/-- C10: with the neural firewall disabled, two evaluations of actions
with identical intent, chain of thought, payload and action type under
the same configuration — even with different fresh ids and clocks —
produce the same decision, risk tier, reasons and rule hits. -/
theorem c10_determinism (cfg : SafetyConfig) (strictMode : Bool) (fr1 fr2 : Freshness)
    (a b : Action)
    (h1 : a.originalIntent = b.originalIntent)
    (h2 : a.cotTrace = b.cotTrace)
    (h3 : a.payload = b.payload)
    (h4 : a.actionType = b.actionType) :
    (coordinatorEvaluate cfg strictMode fr1 a).evaluation.decision
        = (coordinatorEvaluate cfg strictMode fr2 b).evaluation.decision
    ∧ (coordinatorEvaluate cfg strictMode fr1 a).evaluation.riskTier
        = (coordinatorEvaluate cfg strictMode fr2 b).evaluation.riskTier
    ∧ (coordinatorEvaluate cfg strictMode fr1 a).evaluation.reasons
        = (coordinatorEvaluate cfg strictMode fr2 b).evaluation.reasons
    ∧ (coordinatorEvaluate cfg strictMode fr1 a).evaluation.ruleHits
        = (coordinatorEvaluate cfg strictMode fr2 b).evaluation.ruleHits := by
  have h := runPipeline_scannable_congr cfg strictMode a b h1 h2 h3 h4
  refine ⟨?_, ?_, ?_, ?_⟩ <;> simp [coordinatorEvaluate, h]

/-- C10 witness: the two concrete transfers that differ only in id, trace,
user and creation time evaluate identically across two runs with
different fresh ids. -/
theorem c10_witness :
    (coordinatorEvaluate defaultSafetyConfig false fresh0 c10ActionA).evaluation.decision
        = (coordinatorEvaluate defaultSafetyConfig false fresh1 c10ActionB).evaluation.decision
    ∧ (coordinatorEvaluate defaultSafetyConfig false fresh0 c10ActionA).evaluation.riskTier
        = (coordinatorEvaluate defaultSafetyConfig false fresh1 c10ActionB).evaluation.riskTier
    ∧ (coordinatorEvaluate defaultSafetyConfig false fresh0 c10ActionA).evaluation.reasons
        = (coordinatorEvaluate defaultSafetyConfig false fresh1 c10ActionB).evaluation.reasons
    ∧ (coordinatorEvaluate defaultSafetyConfig false fresh0 c10ActionA).evaluation.ruleHits
        = (coordinatorEvaluate defaultSafetyConfig false fresh1 c10ActionB).evaluation.ruleHits :=
  c10_determinism defaultSafetyConfig false fresh0 fresh1 c10ActionA c10ActionB
    rfl rfl rfl rfl

end Shield
